import Mathlib

/-!
Verification of the `vault-plugin-secrets-gcpkms` secrets engine core.

This file shallowly embeds the plugin's data model and operations:
the stored `Config` record and its read/write/delete paths
(`path_config.go`), the backend's cached KMS client handle
(`backend.go`), the field validator (`withFieldValidator` /
`validateFields`), and the versioned-key layer (key records, the
version-window check, the key-config update and the trim operation).
Machine integers are modelled as `Int`/`Nat`; fallible Go code returns
`Except`/`Option`; the external collaborators (Google credential
parsing, the remote KMS service, the Vault SDK helpers) are modelled
as explicit parameters or faithful renderings of their documented
behaviour.
-/

namespace Gcpkms

deriving instance DecidableEq for Except

/-- Error classes of the plugin, mirroring the Go error taxonomy:
`logical.ErrPermissionDenied`, the key-not-found error,
`logical.CodedError(422, ...)` validation errors, and wrapped
upstream/storage errors. -/
inductive VaultErr where
  | permissionDenied
  | keyNotFound
  | codedError (code : Nat) (msg : String)
  | wrapped (msg : String)
deriving DecidableEq, Repr

/-- Embeds `defaultScope` from `config.go`. -/
def defaultScope : String := "https://www.googleapis.com/auth/cloudkms"

/-- Embeds the identity-token parameters carried by the stored config
via the Vault SDK's `pluginidentityutil.PluginIdentityTokenParams`
(an external collaborator of this plugin). -/
structure PluginIdentityTokenParams where
  identityTokenAudience : String
  identityTokenTTL : Int
deriving DecidableEq, Repr

/-- Embeds the automated-rotation parameters carried by the stored
config via the Vault SDK's
`automatedrotationutil.AutomatedRotationParams` (an external
collaborator of this plugin). -/
structure AutomatedRotationParams where
  rotationSchedule : String
  rotationWindow : Int
  rotationPeriod : Int
  disableAutomatedRotation : Bool
deriving DecidableEq, Repr

/-- Embeds `Config` from `config.go`: the stored configuration record
with credentials, scopes, the service-account e-mail and the embedded
SDK parameter structs. -/
structure Config where
  credentials : String
  scopes : List String
  serviceAccountEmail : String
  identity : PluginIdentityTokenParams
  rotation : AutomatedRotationParams
deriving DecidableEq, Repr

/-- Embeds `DefaultConfig` from `config.go`: zero values everywhere
except the single default cloud-KMS scope. -/
def DefaultConfig : Config :=
  { credentials := ""
    scopes := [defaultScope]
    serviceAccountEmail := ""
    identity := { identityTokenAudience := "", identityTokenTTL := 0 }
    rotation := { rotationSchedule := "", rotationWindow := 0,
                  rotationPeriod := 0, disableAutomatedRotation := false } }

/-- State of the storage slot holding the `"config"` entry: the entry
may be absent (or empty), hold undecodable bytes, or hold a decodable
`Config` record. -/
inductive ConfigSlot where
  | absent
  | corrupt
  | stored (c : Config)
deriving DecidableEq, Repr

/-- Embeds `(*backend).Config` from `backend.go`: a missing or empty
entry yields `DefaultConfig`, undecodable bytes yield a wrapped decode
error, and a decodable entry yields the stored record. -/
def backendConfig (s : ConfigSlot) : Except VaultErr Config :=
  match s with
  | .absent => .ok DefaultConfig
  | .corrupt => .error (.wrapped "failed to decode configuration")
  | .stored c => .ok c

/-- Embeds `pathConfigDelete` from `path_config.go`: the config entry
is deleted from storage and the cached client is invalidated. The
returned flag records that `ResetClient` was called. -/
def pathConfigDelete (_s : ConfigSlot) : ConfigSlot × Bool :=
  (.absent, true)

/-- Embeds `Key` from the key registry: a local alias bound to a
remote crypto key, with an allowed version window where `0` means
unbounded. -/
structure Key where
  name : String
  cryptoKeyID : String
  minVersion : Int
  maxVersion : Int
deriving DecidableEq, Repr

/-- Modelled from the spec: `CheckVersion` of the Version Window
Enforcer (its Go source, `key.go`, is not under `src/`; only its
tests and callers are). An unset/zero requested version is always
allowed; otherwise the request is denied when `min_version` is
non-zero and the version is below it, or when `max_version` is
non-zero and the version is above it. -/
def CheckVersion (k : Key) (version : Int) : Bool :=
  if version = 0 then true
  else if k.minVersion ≠ 0 ∧ version < k.minVersion then false
  else if k.maxVersion ≠ 0 ∧ version > k.maxVersion then false
  else true

/-- The five versioned operations that consult the version window. -/
inductive KmsOp where
  | encrypt
  | decrypt
  | sign
  | verify
  | reencrypt
deriving DecidableEq, Repr

/-- Modelled from the spec: the version gate shared by the encrypt,
decrypt, sign, verify and reencrypt handlers (their Go sources are not
under `src/`). Each handler runs `CheckVersion` on the requested
`key_version` and surfaces `logical.ErrPermissionDenied` on denial,
with the same error value regardless of which bound was violated, as
the tests in `path_encrypt_test.go` and the reencrypt test confirm. -/
def runVersionGate (_op : KmsOp) (k : Key) (version : Int) : Except VaultErr Unit :=
  if CheckVersion k version then .ok () else .error .permissionDenied

/-- Modelled from the spec: the key-config update operation
(`path_keys_config.go` is not under `src/`). A missing key yields the
key-not-found error; otherwise `min_version` and `max_version` are
each set when supplied, with negative inputs normalized to `0`
(unbounded) and never rejected, and the updated record is stored. -/
def pathKeysConfigWrite (slot : Option Key) (minVersion maxVersion : Option Int) :
    Except VaultErr Key :=
  match slot with
  | none => .error .keyNotFound
  | some k =>
    let k := match minVersion with
      | some m => { k with minVersion := if m < 0 then 0 else m }
      | none => k
    let k := match maxVersion with
      | some m => { k with maxVersion := if m < 0 then 0 else m }
      | none => k
    .ok k

/-- Modelled from the spec: the register/create operation stores a key
record binding the alias to the supplied remote key identifier, with
both version-window fields at their zero (unbounded) values
(`path_keys_register.go` is not under `src/`). -/
def registerKey (name cryptoKeyID : String) : Key :=
  { name := name, cryptoKeyID := cryptoKeyID, minVersion := 0, maxVersion := 0 }

/-! ## The cached client handle (`backend.go`) -/

/-- Cache-relevant state of the `backend` struct from `backend.go`.
Client handles are modelled as natural numbers drawn from the
fresh-name supply `nextHandle`, so that distinct constructions yield
distinct handles; times are `Int` nanosecond-style instants. -/
structure ClientState where
  kmsClient : Option Nat
  kmsClientCreateTime : Int
  kmsClientLifetime : Int
  nextHandle : Nat
deriving DecidableEq, Repr

/-- Result triple of `KMSClient`: the handle (if any), whether a
release closure was handed out, and the error (if any). -/
structure KMSResult where
  client : Option Nat
  closer : Bool
  err : Option VaultErr
deriving DecidableEq, Repr

/-- External collaborators consumed by `KMSClient`: the storage slot
read by `b.Config`, Google credential parsing and discovery, and the
KMS client constructor, each able to fail. -/
structure ClientEnv where
  configSlot : ConfigSlot
  credentialsFromJSON : String → List String → Except String Unit
  findDefaultCredentials : List String → Except String Unit
  newKeyManagementClient : Except String Unit

/-- Embeds `(*backend).resetClient` from `backend.go`: closes and
clears the cached client and resets the creation time to the epoch. -/
def resetClient (st : ClientState) : ClientState :=
  { st with kmsClient := none, kmsClientCreateTime := 0 }

/-- Embeds the construction half of `(*backend).KMSClient` (the body
under the exclusive lock, after `resetClient`): load the config, then
parse the configured credentials or fall back to default credential
discovery, then construct the client and cache it. The config-load
failure branch returns the triple `(nil, nil, nil)` exactly as the
source does at `backend.go:111`. -/
def buildKMSClient (env : ClientEnv) (now : Int) (st : ClientState) :
    KMSResult × ClientState :=
  match backendConfig env.configSlot with
  | .error _ => ({ client := none, closer := false, err := none }, st)
  | .ok config =>
    let afterCreds :=
      if config.credentials ≠ "" then
        match env.credentialsFromJSON config.credentials config.scopes with
        | .error e => some ("failed to parse credentials: " ++ e)
        | .ok _ => none
      else
        match env.findDefaultCredentials config.scopes with
        | .error e => some ("failed to get default token source: " ++ e)
        | .ok _ => none
    match afterCreds with
    | some e => ({ client := none, closer := false, err := some (.wrapped e) }, st)
    | none =>
      match env.newKeyManagementClient with
      | .error e =>
        ({ client := none, closer := false,
           err := some (.wrapped ("failed to create KMS client: " ++ e)) }, st)
      | .ok _ =>
        let h := st.nextHandle
        ({ client := some h, closer := true, err := none },
         { st with kmsClient := some h, kmsClientCreateTime := now,
                   nextHandle := h + 1 })

/-- Embeds `(*backend).KMSClient` from `backend.go`: if a client is
cached and its age is below the lifetime it is returned as-is under
the read lock; otherwise the exclusive path resets the cache and
constructs a new client. -/
def KMSClient (env : ClientEnv) (now : Int) (st : ClientState) :
    KMSResult × ClientState :=
  match st.kmsClient with
  | some h =>
    if now - st.kmsClientCreateTime < st.kmsClientLifetime then
      ({ client := some h, closer := true, err := none }, st)
    else
      buildKMSClient env now (resetClient st)
  | none => buildKMSClient env now (resetClient st)

/-- Allocation invariant of the fresh-name supply: any cached handle
was drawn below `nextHandle`. -/
def handleFresh (st : ClientState) : Prop :=
  ∀ h, st.kmsClient = some h → h < st.nextHandle

/-! ## Field validation (`withFieldValidator` / `validateFields`) -/

/-- Lexicographic comparison of character lists, the order on which
Go's `sort.Strings` sorts (byte order there, character order here). -/
def charListLe : List Char → List Char → Bool
  | [], _ => true
  | _ :: _, [] => false
  | a :: as, b :: bs => if a < b then true else if b < a then false else charListLe as bs

/-- Lexicographic order on strings, as used by Go's `sort.Strings`. -/
def stringLe (a b : String) : Prop := charListLe a.data b.data = true

instance : DecidableRel stringLe := fun a b =>
  inferInstanceAs (Decidable (charListLe a.data b.data = true))

/-- The request-data keys absent from the operation's schema, as
collected by the loop in `validateFields`. -/
def unknownFieldsOf (dataKeys schema : List String) : List String :=
  dataKeys.filter (fun k => !(schema.contains k))

/-- The error text `validateFields` builds from the unknown fields:
singular for one field, plural with the sorted comma-joined list
otherwise. -/
def unknownFieldsMessage (xs : List String) : String :=
  match xs with
  | [x] => "unknown field: " ++ x
  | xs => "unknown fields: " ++
      String.intercalate "," (List.insertionSort stringLe xs)

/-- Embeds `validateFields`: collects the request-data keys absent
from the operation's schema and reports them, singular or plural with
the plural list sorted, as in the source. -/
def validateFields (dataKeys schema : List String) : Option String :=
  match unknownFieldsOf dataKeys schema with
  | [] => none
  | xs => some (unknownFieldsMessage xs)

/-- Embeds `withFieldValidator`: wraps an operation handler, failing
with a 422 coded error before the handler runs when validation
fails. The handler is a thunk so that non-invocation is meaningful. -/
def withFieldValidator {α : Type} (f : Unit → Except VaultErr α)
    (dataKeys schema : List String) : Except VaultErr α :=
  match validateFields dataKeys schema with
  | some msg => .error (.codedError 422 msg)
  | none => f ()

/-! ## The config write and read paths (`path_config.go`) -/

/-- Whitespace as recognized by Go's `strings.TrimSpace` (restricted
to the ASCII whitespace characters, which is all the config path ever
meets). -/
def isSpaceChar (c : Char) : Bool :=
  c = ' ' || c = '\t' || c = '\n' || c = '\r'

/-- Embeds Go's `strings.TrimSpace`: strips leading and trailing
whitespace. -/
def TrimSpace (s : String) : String :=
  String.mk (((s.data.dropWhile isSpaceChar).reverse.dropWhile isSpaceChar).reverse)

/-- Embeds Go's `strings.ToLower` on strings. -/
def ToLower (s : String) : String :=
  String.mk (s.data.map Char.toLower)

/-- Embeds `strutil.RemoveDuplicates(items, lowercase=true)` from the
`go-secure-stdlib` collaborator: trim and lowercase each item, drop
empties, de-duplicate and sort ascending. -/
def RemoveDuplicates (items : List String) : List String :=
  List.insertionSort stringLe
    (((items.map (fun s => ToLower (TrimSpace s))).filter (fun s => s ≠ "")).dedup)

/-- Embeds `strutil.EquivalentSlices` from the `go-secure-stdlib`
collaborator: equality of the two lists as sets. (The Go nil-versus-
empty-slice distinction does not exist in this model.) -/
def EquivalentSlices (a b : List String) : Bool :=
  a.all (fun x => b.contains x) && b.all (fun x => a.contains x)

/-- Field data supplied to the config write path; `none` means the
field was absent from the request (`d.GetOk` returns false). The
rotation fields parsed by the SDK's `ParseAutomatedRotationFields` are
omitted: they never set `setNewCreds` in the source and no claim
touches them. -/
structure ConfigFieldData where
  credentials : Option String
  scopes : Option (List String)
  serviceAccountEmail : Option String
  identityTokenAudience : Option String
  identityTokenTTL : Option Int
deriving DecidableEq, Repr

/-- Outcome of the config write path: a logical error response, or
success carrying whether the record was persisted (`Storage.Put`) and
whether `ResetClient` was invoked, plus the resulting config. -/
inductive WriteOutcome where
  | errResp (msg : String)
  | ok (persisted : Bool) (didReset : Bool) (c : Config)
deriving DecidableEq, Repr

/-- Embeds the body of `pathConfigWrite` after the credentials step:
scopes (changed as a normalized set ⇒ `setNewCreds`), the SDK-parsed
identity-token fields, the service-account e-mail (present ⇒
`setNewCreds`), the workload-identity consistency checks, then
persist-and-reset exactly when `setNewCreds` ended up set or an
identity-token field was supplied. -/
def pathConfigWriteRest (generateTokenOk : Bool) (c0 : Config)
    (d : ConfigFieldData) (setNewCreds0 : Bool) : WriteOutcome :=
  let step1 : Config × Bool :=
    match d.scopes with
    | some v =>
      let nv := RemoveDuplicates v
      if EquivalentSlices nv c0.scopes then (c0, setNewCreds0)
      else ({ c0 with scopes := nv }, true)
    | none => (c0, setNewCreds0)
  let c1 := step1.1
  let c2 :=
    match d.identityTokenAudience with
    | some a => { c1 with identity := { c1.identity with identityTokenAudience := a } }
    | none => c1
  let c3 :=
    match d.identityTokenTTL with
    | some t => { c2 with identity := { c2.identity with identityTokenTTL := t } }
    | none => c2
  let step4 : Config × Bool :=
    match d.serviceAccountEmail with
    | some e => ({ c3 with serviceAccountEmail := e }, true)
    | none => (c3, step1.2)
  let c4 := step4.1
  if c4.identity.identityTokenAudience ≠ "" ∧ c4.credentials ≠ "" then
    .errResp "only one of credentials or identity_token_audience can be set"
  else if c4.identity.identityTokenAudience ≠ "" ∧ c4.serviceAccountEmail = "" then
    .errResp "missing required service_account_email when identity_token_audience is set"
  else if c4.identity.identityTokenAudience ≠ "" ∧ ¬ generateTokenOk then
    .errResp "error generating identity token"
  else
    let persist := step4.2 || d.identityTokenAudience.isSome || d.identityTokenTTL.isSome
    .ok persist persist c4

/-- Embeds `pathConfigWrite` from `path_config.go` (the current,
SDK-based version at lines 251–340). `parseCredentialsOk` stands for
the external `gcputil.Credentials` JSON check and `generateTokenOk`
for the external `GenerateIdentityToken` call; the source's fatal
versus response-error distinction on the latter is collapsed into an
error response, which no claim distinguishes. The credentials step is
the only one with an early return; the rest of the handler body is
`pathConfigWriteRest`. Note the source sets `setNewCreds` whenever the
credentials field is merely present, whether or not its value differs
from the stored one. -/
def pathConfigWrite (parseCredentialsOk : String → Bool) (generateTokenOk : Bool)
    (stored : Config) (d : ConfigFieldData) : WriteOutcome :=
  match d.credentials with
  | some raw =>
    if (TrimSpace raw).length > 0 ∧ ¬ parseCredentialsOk raw then
      .errResp "invalid credentials JSON file"
    else
      pathConfigWriteRest generateTokenOk { stored with credentials := TrimSpace raw } d true
  | none => pathConfigWriteRest generateTokenOk stored d false


/-- The scopes-differ test of the config write: a supplied scopes
value changes the config iff its normalized form is not set-equal to
the stored scopes. -/
def scopesChangedFrom (c0 : Config) (d : ConfigFieldData) : Bool :=
  match d.scopes with
  | some v => !(EquivalentSlices (RemoveDuplicates v) c0.scopes)
  | none => false

/-- The persist/reset condition the config write actually computes:
the credentials, service-account-email or identity-token-TTL field is
present, or the supplied scopes differ from the stored ones as a
normalized set. -/
def persistCondition (stored : Config) (d : ConfigFieldData) : Bool :=
  d.credentials.isSome || scopesChangedFrom stored d
    || d.serviceAccountEmail.isSome || d.identityTokenTTL.isSome

/-- The config produced by the post-credentials steps of the write. -/
def configAfterRest (c0 : Config) (d : ConfigFieldData) : Config :=
  let c1 := match d.scopes with
    | some v =>
      let nv := RemoveDuplicates v
      if EquivalentSlices nv c0.scopes then c0 else { c0 with scopes := nv }
    | none => c0
  let c2 := match d.identityTokenAudience with
    | some a => { c1 with identity := { c1.identity with identityTokenAudience := a } }
    | none => c1
  let c3 := match d.identityTokenTTL with
    | some t => { c2 with identity := { c2.identity with identityTokenTTL := t } }
    | none => c2
  match d.serviceAccountEmail with
  | some e => { c3 with serviceAccountEmail := e }
  | none => c3

/-- A value in a logical response-data map. -/
inductive FieldValue where
  | str (s : String)
  | int (i : Int)
  | strList (l : List String)
  | boolean (b : Bool)
deriving DecidableEq, Repr

/-- Embeds the SDK's `PopulatePluginIdentityTokenData` (external
collaborator): adds the token TTL and audience to the response map. -/
def PopulatePluginIdentityTokenData (p : PluginIdentityTokenParams) :
    List (String × FieldValue) :=
  [("identity_token_ttl", .int p.identityTokenTTL),
   ("identity_token_audience", .str p.identityTokenAudience)]

/-- Embeds the SDK's `PopulateAutomatedRotationData` (external
collaborator): adds the rotation parameters to the response map. -/
def PopulateAutomatedRotationData (p : AutomatedRotationParams) :
    List (String × FieldValue) :=
  [("rotation_schedule", .str p.rotationSchedule),
   ("rotation_window", .int p.rotationWindow),
   ("rotation_period", .int p.rotationPeriod),
   ("disable_automated_rotation", .boolean p.disableAutomatedRotation)]

/-- Embeds `pathConfigRead` from `path_config.go` (lines 230–247):
reads the config and returns a response map holding the scopes, the
service-account e-mail, and the SDK-populated identity-token and
rotation data — and nothing else. -/
def pathConfigRead (slot : ConfigSlot) : Except VaultErr (List (String × FieldValue)) :=
  match backendConfig slot with
  | .error e => .error e
  | .ok c =>
    .ok ([("scopes", .strList c.scopes),
          ("service_account_email", .str c.serviceAccountEmail)]
      ++ PopulatePluginIdentityTokenData c.identity
      ++ PopulateAutomatedRotationData c.rotation)

/-! ## Trim (`path_keys_trim.go`, modelled from the spec) -/

/-- A remote crypto key version: its sequence number (creation order)
and whether it is in a destroyed / destroy-scheduled terminal state. -/
structure CryptoKeyVersion where
  id : Nat
  destroyed : Bool
deriving DecidableEq, Repr

/-- Descending creation order on versions, used to sort newest-first. -/
def newerEq (u v : CryptoKeyVersion) : Prop := v.id ≤ u.id

instance : DecidableRel newerEq := fun u v => Nat.decLe v.id u.id

instance : IsTotal CryptoKeyVersion newerEq :=
  ⟨fun a b => (Nat.le_total b.id a.id).elim Or.inl Or.inr⟩

instance : IsTrans CryptoKeyVersion newerEq :=
  ⟨fun _ _ _ hab hbc => Nat.le_trans hbc hab⟩

/-- The versions of a key not yet in a terminal destroyed state. -/
def liveVersions (vs : List CryptoKeyVersion) : List CryptoKeyVersion :=
  vs.filter (fun v => !v.destroyed)

/-- Modelled from the spec: the destruction candidates of `Trim`
(`path_keys_trim.go` is not under `src/`) — filter out versions
already destroyed/destroy-scheduled, sort the rest by creation order
descending, and keep everything past the newest `keep`. -/
def trimCandidates (keep : Nat) (vs : List CryptoKeyVersion) : List Nat :=
  ((List.insertionSort newerEq (liveVersions vs)).drop keep).map (fun v => v.id)

/-- Puts every version whose id is among the candidates into the
destroy-scheduled state (the per-candidate idempotent destroy call of
`Trim`, with already-destroyed and not-found treated as success). -/
def markDestroyed (candidates : List Nat) (vs : List CryptoKeyVersion) :
    List CryptoKeyVersion :=
  vs.map (fun v =>
    if v.id ∈ candidates then { v with destroyed := true } else v)

/-- Modelled from the spec: `Trim` schedules destruction of every
candidate version, leaving the newest `keep` live versions and the
already-terminal versions untouched. -/
def Trim (keep : Nat) (vs : List CryptoKeyVersion) : List CryptoKeyVersion :=
  markDestroyed (trimCandidates keep vs) vs

/-! ## Concrete fixtures -/

/-- Environment whose config entry is undecodable, so `b.Config`
fails. -/
def envConfigCorrupt : ClientEnv :=
  { configSlot := .corrupt
    credentialsFromJSON := fun _ _ => .ok ()
    findDefaultCredentials := fun _ => .ok ()
    newKeyManagementClient := .ok () }

/-- Environment with stored explicit credentials whose parsing
fails. -/
def envCredsFail : ClientEnv :=
  { configSlot := .stored { DefaultConfig with credentials := "not-json" }
    credentialsFromJSON := fun _ _ => .error "bad creds"
    findDefaultCredentials := fun _ => .ok ()
    newKeyManagementClient := .ok () }

/-- Environment where the KMS client constructor fails. -/
def envBuildFail : ClientEnv :=
  { configSlot := .absent
    credentialsFromJSON := fun _ _ => .ok ()
    findDefaultCredentials := fun _ => .ok ()
    newKeyManagementClient := .error "boom" }

/-- Environment where every collaborator succeeds. -/
def envAllOk : ClientEnv :=
  { configSlot := .absent
    credentialsFromJSON := fun _ _ => .ok ()
    findDefaultCredentials := fun _ => .ok ()
    newKeyManagementClient := .ok () }

/-- A backend state with an empty client cache. -/
def emptyCacheState : ClientState :=
  { kmsClient := none, kmsClientCreateTime := 0, kmsClientLifetime := 30,
    nextHandle := 0 }

/-! ## Helper lemmas -/

/-- Helper: a list is always set-equivalent to itself. -/
theorem EquivalentSlices_self (a : List String) : EquivalentSlices a a = true := by
  unfold EquivalentSlices
  simp only [Bool.and_eq_true, List.all_eq_true]
  exact ⟨fun x hx => List.elem_eq_true_of_mem hx, fun x hx => List.elem_eq_true_of_mem hx⟩

/-- Helper: on a request without the identity-token-audience field,
against a stored config without a configured audience, the
post-credentials part of the config write succeeds and persists
exactly when a `setNewCreds` trigger fired. -/
theorem pathConfigWriteRest_no_audience (tokenOk : Bool) (c0 : Config)
    (d : ConfigFieldData) (b : Bool)
    (haud : d.identityTokenAudience = none)
    (hca : c0.identity.identityTokenAudience = "") :
    pathConfigWriteRest tokenOk c0 d b =
      .ok (b || scopesChangedFrom c0 d || d.serviceAccountEmail.isSome
            || d.identityTokenTTL.isSome)
          (b || scopesChangedFrom c0 d || d.serviceAccountEmail.isSome
            || d.identityTokenTTL.isSome)
          (configAfterRest c0 d) := by
  obtain ⟨cr, sc, sa, aud, ttl⟩ := d
  dsimp only at haud ⊢
  subst haud
  unfold pathConfigWriteRest configAfterRest scopesChangedFrom
  rcases sc with _ | v <;> rcases sa with _ | e <;> rcases ttl with _ | t <;>
    dsimp only <;>
    split_ifs <;>
    simp_all

/-! ## Claims -/

/-- C1: the claim says every failing acquire (config load, credential
resolution, or handle construction) caches nothing and returns a
non-nil error, never the triple (nil handle, nil closer, nil error).
The code violates this on the config-load branch: `backend.go:111`
returns `nil, nil, nil`, silently swallowing the config error, as the
first conjunct shows by evaluation (nothing is cached, but the error
is `none` too). The credential-parse and construction branches do
surface non-nil errors with nothing cached. -/
theorem c1_config_load_failure_swallows_error :
    KMSClient envConfigCorrupt 100 emptyCacheState =
      ({ client := none, closer := false, err := none }, resetClient emptyCacheState)
    ∧ (KMSClient envCredsFail 100 emptyCacheState).1.err =
        some (.wrapped "failed to parse credentials: bad creds")
    ∧ (KMSClient envCredsFail 100 emptyCacheState).2.kmsClient = none
    ∧ (KMSClient envBuildFail 100 emptyCacheState).1.err =
        some (.wrapped "failed to create KMS client: boom")
    ∧ (KMSClient envBuildFail 100 emptyCacheState).2.kmsClient = none :=
  ⟨rfl, rfl, rfl, rfl, rfl⟩

/-- C2: for a key with min_version 3 and max_version 5, the version
gate of every versioned operation (encrypt, decrypt, sign, verify,
reencrypt) passes exactly the requested versions 0 (unset), 3, 4 and
5, and fails every other requested version with the single
permission-denied error value — identical for both bounds and a
different constructor from the not-found and validation errors. -/
theorem c2_version_window_three_to_five (n ck : String) (op : KmsOp) (v : Int) :
    (runVersionGate op { name := n, cryptoKeyID := ck, minVersion := 3, maxVersion := 5 } v
        = .ok () ↔ (v = 0 ∨ (3 ≤ v ∧ v ≤ 5)))
    ∧ (runVersionGate op { name := n, cryptoKeyID := ck, minVersion := 3, maxVersion := 5 } v
        = .error .permissionDenied ↔ ¬(v = 0 ∨ (3 ≤ v ∧ v ≤ 5))) := by
  unfold runVersionGate CheckVersion
  split_ifs with h1 h2 h3 <;> refine ⟨?_, ?_⟩ <;> first | (simp_all; omega) | simp_all

/-- C4: an operation whose request data contains a key absent from
the operation's schema fails with the 422 coded validation error
whose message is built from exactly the offending fields, and the
wrapped handler is never invoked (the outcome is independent of the
handler), so no storage access and no remote call happens — for every
operation (every schema and every handler). -/
theorem c4_unknown_fields_block_handler {α : Type} (dataKeys schema : List String)
    (f : Unit → Except VaultErr α)
    (h : ∃ k, k ∈ dataKeys ∧ schema.contains k = false) :
    unknownFieldsOf dataKeys schema ≠ []
    ∧ withFieldValidator f dataKeys schema =
        .error (.codedError 422 (unknownFieldsMessage (unknownFieldsOf dataKeys schema)))
    ∧ (∀ g : Unit → Except VaultErr α,
        withFieldValidator g dataKeys schema = withFieldValidator f dataKeys schema)
    ∧ (∀ k, k ∈ dataKeys → schema.contains k = false →
        k ∈ unknownFieldsOf dataKeys schema) := by
  have hmem : ∀ k, k ∈ dataKeys → schema.contains k = false →
      k ∈ unknownFieldsOf dataKeys schema := by
    intro k hk hks
    exact List.mem_filter.2 ⟨hk, by simpa using hks⟩
  have hne : unknownFieldsOf dataKeys schema ≠ [] := by
    obtain ⟨k, hk, hks⟩ := h
    have hx := hmem k hk hks
    intro hnil
    rw [hnil] at hx
    exact (List.not_mem_nil k) hx
  refine ⟨hne, ?_, ?_, hmem⟩
  · cases hu : unknownFieldsOf dataKeys schema with
    | nil => exact absurd hu hne
    | cons a as => simp [withFieldValidator, validateFields, hu]
  · intro g
    cases hu : unknownFieldsOf dataKeys schema with
    | nil => exact absurd hu hne
    | cons a as => simp [withFieldValidator, validateFields, hu]

/-- C4 witness: the validation failure at a concrete unknown field. -/
theorem c4_unknown_fields_block_handler_witness :
    unknownFieldsOf ["literally-never-a-key"] ["plaintext"] ≠ []
    ∧ withFieldValidator (fun _ => Except.ok (0 : Nat))
        ["literally-never-a-key"] ["plaintext"] =
        .error (.codedError 422
          (unknownFieldsMessage (unknownFieldsOf ["literally-never-a-key"] ["plaintext"])))
    ∧ withFieldValidator (fun _ => Except.error (VaultErr.wrapped "other"))
        ["literally-never-a-key"] ["plaintext"] =
        withFieldValidator (fun _ => Except.ok (0 : Nat))
          ["literally-never-a-key"] ["plaintext"]
    ∧ "literally-never-a-key" ∈ unknownFieldsOf ["literally-never-a-key"] ["plaintext"] := by
  have H := c4_unknown_fields_block_handler (α := Nat)
    ["literally-never-a-key"] ["plaintext"] (fun _ => Except.ok 0)
    ⟨"literally-never-a-key", by decide, by decide⟩
  exact ⟨H.1, H.2.1, H.2.2.1 _, H.2.2.2 _ (by decide) (by decide)⟩

/-- C6: after deleting the configuration record, reading the
configuration yields exactly the default configuration, whose scopes
list is the single default cloud-KMS scope and is non-empty; a read
when no configuration was ever stored yields the same default. -/
theorem c6_delete_then_read_yields_default (s : ConfigSlot) :
    backendConfig (pathConfigDelete s).1 = .ok DefaultConfig
    ∧ backendConfig .absent = .ok DefaultConfig
    ∧ DefaultConfig.scopes = [defaultScope]
    ∧ DefaultConfig.scopes ≠ [] :=
  ⟨rfl, rfl, rfl, List.cons_ne_nil _ _⟩

/-- C8: for every existing key, the key-config update always succeeds
and stores 0 for any supplied negative min_version or max_version. -/
theorem c8_negative_bounds_normalized (k : Key) (minv maxv : Option Int) :
    ∃ k', pathKeysConfigWrite (some k) minv maxv = .ok k'
      ∧ (∀ m, minv = some m → m < 0 → k'.minVersion = 0)
      ∧ (∀ m, maxv = some m → m < 0 → k'.maxVersion = 0) := by
  rcases minv with _ | m <;> rcases maxv with _ | M <;>
    refine ⟨_, rfl, ?_, ?_⟩ <;> intro m' hm' hneg <;>
      simp_all [pathKeysConfigWrite]

/-- C8 witness: updating with min_version = max_version = −1 succeeds
and stores 0 for both bounds. -/
theorem c8_negative_bounds_normalized_witness :
    ∃ k', pathKeysConfigWrite (some (registerKey "my-key" "ck"))
        (some (-1)) (some (-1)) = .ok k'
      ∧ k'.minVersion = 0 ∧ k'.maxVersion = 0 := by
  obtain ⟨k', hk, hmin, hmax⟩ :=
    c8_negative_bounds_normalized (registerKey "my-key" "ck") (some (-1)) (some (-1))
  exact ⟨k', hk, hmin (-1) rfl (by decide), hmax (-1) rfl (by decide)⟩

/-- C9 counterexample: a single accepted key-config update stores a
key whose non-zero bounds cross (min_version 5 > max_version 3), so
the claimed invariant is not maintained by the update operation. -/
theorem c9_crossed_bounds_reachable :
    pathKeysConfigWrite (some (registerKey "my-key" "ck")) (some 5) (some 3) =
      .ok { name := "my-key", cryptoKeyID := "ck", minVersion := 5, maxVersion := 3 }
    ∧ (5 : Int) ≠ 0 ∧ (3 : Int) ≠ 0 ∧ ¬ ((5 : Int) ≤ 3) := by
  refine ⟨rfl, by decide, by decide, by decide⟩

/-- C9 amended: registration creates keys with both bounds 0, and the
key-config update keeps both bounds non-negative (negatives are
normalized to 0); it does not enforce min_version ≤ max_version, so
only non-negativity is invariant. -/
theorem c9_amended_nonnegative_bounds :
    (∀ n ck, (registerKey n ck).minVersion = 0 ∧ (registerKey n ck).maxVersion = 0)
    ∧ (∀ (k k' : Key) (minv maxv : Option Int),
        0 ≤ k.minVersion → 0 ≤ k.maxVersion →
        pathKeysConfigWrite (some k) minv maxv = .ok k' →
        0 ≤ k'.minVersion ∧ 0 ≤ k'.maxVersion) := by
  refine ⟨fun n ck => ⟨rfl, rfl⟩, ?_⟩
  intro k k' minv maxv hmin hmax h
  rcases minv with _ | m <;> rcases maxv with _ | M <;>
    simp only [pathKeysConfigWrite, Except.ok.injEq] at h <;> subst h <;>
    refine ⟨?_, ?_⟩ <;> dsimp only <;> first | assumption | (split <;> omega)

/-- C9 amended witness: the non-negativity conclusion at a concrete
update that supplies a negative bound. -/
theorem c9_amended_nonnegative_bounds_witness :
    0 ≤ (Key.mk "my-key" "ck" 0 0).minVersion
    ∧ 0 ≤ (Key.mk "my-key" "ck" 0 0).maxVersion :=
  c9_amended_nonnegative_bounds.2 (registerKey "my-key" "ck")
    (Key.mk "my-key" "ck" 0 0) (some (-1)) none (by decide) (by decide) (by decide)

/-- Helper: whenever the construction path hands out a client, that
client is the state's next fresh handle. -/
theorem buildKMSClient_client_eq_nextHandle (env : ClientEnv) (now : Int)
    (st : ClientState) (h : Nat)
    (hc : (buildKMSClient env now st).1.client = some h) : h = st.nextHandle := by
  unfold buildKMSClient at hc
  split at hc
  · simp at hc
  · dsimp only at hc
    split at hc
    · simp at hc
    · split at hc
      · simp at hc
      · simp at hc
        omega

/-- C3: (1) when a client is cached and its age is below the
lifetime, acquire returns exactly that cached handle with a closer
and no error, and leaves the state — in particular the fresh-handle
supply — untouched, so nothing is constructed; (2) the supply moves
(a new handle is constructed) only if nothing was cached or the
cached handle had reached its lifetime; (3) after the prior handle
was reset, any acquire that hands out a client hands out one
different from the prior handle. -/
theorem c3_cache_fresh_hit_and_reset_fresh_handle :
    (∀ (env : ClientEnv) (now : Int) (st : ClientState) (h : Nat),
      st.kmsClient = some h →
      now - st.kmsClientCreateTime < st.kmsClientLifetime →
      KMSClient env now st = ({ client := some h, closer := true, err := none }, st))
    ∧ (∀ (env : ClientEnv) (now : Int) (st : ClientState),
      (KMSClient env now st).2.nextHandle ≠ st.nextHandle →
      st.kmsClient = none ∨ st.kmsClientLifetime ≤ now - st.kmsClientCreateTime)
    ∧ (∀ (env : ClientEnv) (now : Int) (st : ClientState) (h h' : Nat),
      handleFresh st → st.kmsClient = some h →
      (KMSClient env now (resetClient st)).1.client = some h' → h' ≠ h) := by
  refine ⟨?_, ?_, ?_⟩
  · intro env now st h hcl hfresh
    unfold KMSClient
    rw [hcl]
    simp [hfresh]
  · intro env now st hmoved
    rcases hcl : st.kmsClient with _ | h
    · exact Or.inl rfl
    · right
      by_contra hfresh
      push_neg at hfresh
      apply hmoved
      unfold KMSClient
      rw [hcl]
      simp [hfresh]
  · intro env now st h h' hwf hcl hclient
    have hst : (resetClient st).kmsClient = none := rfl
    have hnext : (resetClient (resetClient st)).nextHandle = st.nextHandle := rfl
    unfold KMSClient at hclient
    rw [hst] at hclient
    have := buildKMSClient_client_eq_nextHandle env now (resetClient (resetClient st)) h' hclient
    have hlt := hwf h hcl
    omega

/-- C3 witness: the three conclusions at concrete inputs — a fresh
cached handle is returned unchanged; an acquire that moved the supply
on an empty cache implies the cache was empty; and after a reset the
freshly built handle differs from the prior one. -/
theorem c3_cache_fresh_hit_and_reset_fresh_handle_witness :
    KMSClient envAllOk 10
        { kmsClient := some 7, kmsClientCreateTime := 0, kmsClientLifetime := 30,
          nextHandle := 8 } =
      ({ client := some 7, closer := true, err := none },
       { kmsClient := some 7, kmsClientCreateTime := 0, kmsClientLifetime := 30,
         nextHandle := 8 })
    ∧ (emptyCacheState.kmsClient = none
        ∨ emptyCacheState.kmsClientLifetime ≤ 100 - emptyCacheState.kmsClientCreateTime)
    ∧ ((KMSClient envAllOk 100 (resetClient
          { kmsClient := some 7, kmsClientCreateTime := 0, kmsClientLifetime := 30,
            nextHandle := 8 })).1.client = some 8 → (8 : Nat) ≠ 7) := by
  refine ⟨?_, ?_, ?_⟩
  · exact c3_cache_fresh_hit_and_reset_fresh_handle.1 envAllOk 10 _ 7 rfl (by decide)
  · exact c3_cache_fresh_hit_and_reset_fresh_handle.2.1 envAllOk 100 emptyCacheState (by decide)
  · exact fun hc => c3_cache_fresh_hit_and_reset_fresh_handle.2.2 envAllOk 100 _ 7 8
      (fun h hh => by injection hh with h7; rw [← h7]; decide) rfl hc

/-- C5 counterexample: a write that supplies the empty credentials
string to the default stored config changes no field — the resulting
config equals the stored one — yet it persists the record and resets
the cached client, because the source sets `setNewCreds` on mere
presence of the credentials field. -/
theorem c5_unchanged_write_still_persists :
    pathConfigWrite (fun _ => true) true DefaultConfig
        { credentials := some "", scopes := none, serviceAccountEmail := none,
          identityTokenAudience := none, identityTokenTTL := none }
      = .ok true true DefaultConfig := by
  decide

/-- C5 amended: the config write persists a new record and resets the
cached client iff the request supplies the credentials,
service-account-email or identity-token-TTL field, or supplies scopes
whose de-duplicated case-normalized form is not set-equal to the
stored scopes (stated for requests without the identity-token-audience
field against configs with no configured audience; valid credentials
when supplied). In particular a scopes-only write whose value is a
reordering, duplication or case variant of the (normalized) stored
scopes reports no change, performs no storage put and does not reset
the cached client. -/
theorem c5_amended_persist_iff_trigger :
    (∀ (parseOk : String → Bool) (tokenOk : Bool) (stored : Config) (d : ConfigFieldData),
      d.identityTokenAudience = none →
      stored.identity.identityTokenAudience = "" →
      (∀ raw, d.credentials = some raw → (TrimSpace raw).length > 0 → parseOk raw = true) →
      ∃ c', pathConfigWrite parseOk tokenOk stored d =
        .ok (persistCondition stored d) (persistCondition stored d) c')
    ∧ (∀ (parseOk : String → Bool) (tokenOk : Bool) (stored : Config) (v : List String),
      stored.identity.identityTokenAudience = "" →
      stored.scopes = RemoveDuplicates stored.scopes →
      RemoveDuplicates v = RemoveDuplicates stored.scopes →
      pathConfigWrite parseOk tokenOk stored
        { credentials := none, scopes := some v, serviceAccountEmail := none,
          identityTokenAudience := none, identityTokenTTL := none } =
        .ok false false stored) := by
  constructor
  · intro parseOk tokenOk stored d haud hca hcred
    obtain ⟨cr, sc, sa, aud, ttl⟩ := d
    dsimp only at haud hcred ⊢
    subst haud
    rcases cr with _ | raw
    · refine ⟨configAfterRest stored ⟨none, sc, sa, none, ttl⟩, ?_⟩
      show pathConfigWriteRest tokenOk stored ⟨none, sc, sa, none, ttl⟩ false = _
      rw [pathConfigWriteRest_no_audience tokenOk stored ⟨none, sc, sa, none, ttl⟩ false rfl hca]
      simp [persistCondition]
    · have hcond : ¬((TrimSpace raw).length > 0 ∧ ¬ parseOk raw = true) := by
        rintro ⟨hl, hp⟩
        exact hp (hcred raw rfl hl)
      refine ⟨configAfterRest { stored with credentials := TrimSpace raw }
        ⟨some raw, sc, sa, none, ttl⟩, ?_⟩
      show (if (TrimSpace raw).length > 0 ∧ ¬ parseOk raw then _ else _) = _
      rw [if_neg hcond]
      rw [pathConfigWriteRest_no_audience tokenOk { stored with credentials := TrimSpace raw }
        ⟨some raw, sc, sa, none, ttl⟩ true rfl hca]
      simp [persistCondition]
  · intro parseOk tokenOk stored v hca hnorm hvar
    have hEq : EquivalentSlices (RemoveDuplicates v) stored.scopes = true := by
      rw [hvar, ← hnorm]
      exact EquivalentSlices_self _
    show pathConfigWriteRest tokenOk stored
      ⟨none, some v, none, none, none⟩ false = _
    rw [pathConfigWriteRest_no_audience tokenOk stored
      ⟨none, some v, none, none, none⟩ false rfl hca]
    simp [persistCondition, scopesChangedFrom, configAfterRest, hEq]

/-- C5 amended witness: a credentials-bearing write persists, and a
scopes-only write whose value is a case-variant duplication of the
stored default scope set does not persist and does not reset. -/
theorem c5_amended_persist_iff_trigger_witness :
    (∃ c', pathConfigWrite (fun _ => true) true DefaultConfig
        { credentials := some "x", scopes := none, serviceAccountEmail := none,
          identityTokenAudience := none, identityTokenTTL := none } =
      .ok (persistCondition DefaultConfig
            { credentials := some "x", scopes := none, serviceAccountEmail := none,
              identityTokenAudience := none, identityTokenTTL := none })
          (persistCondition DefaultConfig
            { credentials := some "x", scopes := none, serviceAccountEmail := none,
              identityTokenAudience := none, identityTokenTTL := none }) c')
    ∧ pathConfigWrite (fun _ => true) true DefaultConfig
        { credentials := none,
          scopes := some ["HTTPS://WWW.GOOGLEAPIS.COM/AUTH/CLOUDKMS", defaultScope],
          serviceAccountEmail := none,
          identityTokenAudience := none, identityTokenTTL := none } =
      .ok false false DefaultConfig := by
  constructor
  · exact c5_amended_persist_iff_trigger.1 (fun _ => true) true DefaultConfig _
      rfl rfl (fun raw _ _ => rfl)
  · exact c5_amended_persist_iff_trigger.2 (fun _ => true) true DefaultConfig
      ["HTTPS://WWW.GOOGLEAPIS.COM/AUTH/CLOUDKMS", defaultScope]
      rfl (by decide) (by decide)

/-- C10: the config read's response data is identical for any two
stored configs that agree on everything except the credentials field,
and for every stored config the response data contains no
"credentials" entry. -/
theorem c10_config_read_hides_credentials :
    (∀ c₁ c₂ : Config, c₁.scopes = c₂.scopes →
      c₁.serviceAccountEmail = c₂.serviceAccountEmail →
      c₁.identity = c₂.identity → c₁.rotation = c₂.rotation →
      pathConfigRead (.stored c₁) = pathConfigRead (.stored c₂))
    ∧ (∀ (c : Config) (resp : List (String × FieldValue)),
      pathConfigRead (.stored c) = .ok resp →
      "credentials" ∉ resp.map Prod.fst) := by
  constructor
  · intro c₁ c₂ hs hsa hid hrot
    simp only [pathConfigRead, backendConfig, hs, hsa, hid, hrot]
  · intro c resp h
    simp only [pathConfigRead, backendConfig, Except.ok.injEq] at h
    subst h
    simp [PopulatePluginIdentityTokenData, PopulateAutomatedRotationData]

/-- C10 witness: two configs differing only in credentials produce
the same response, and the concrete response keys of a config read
exclude "credentials". -/
theorem c10_config_read_hides_credentials_witness :
    pathConfigRead (.stored { DefaultConfig with credentials := "secret-a" }) =
      pathConfigRead (.stored { DefaultConfig with credentials := "secret-b" })
    ∧ "credentials" ∉
        ([("scopes", FieldValue.strList [defaultScope]),
          ("service_account_email", FieldValue.str ""),
          ("identity_token_ttl", FieldValue.int 0),
          ("identity_token_audience", FieldValue.str ""),
          ("rotation_schedule", FieldValue.str ""),
          ("rotation_window", FieldValue.int 0),
          ("rotation_period", FieldValue.int 0),
          ("disable_automated_rotation", FieldValue.boolean false)].map Prod.fst) := by
  constructor
  · exact c10_config_read_hides_credentials.1 _ _ rfl rfl rfl rfl
  · exact c10_config_read_hides_credentials.2
      { DefaultConfig with credentials := "secret-a" } _ rfl

/-- Helper: `List.contains` agrees with membership on `Nat` lists. -/
theorem nat_contains_iff (D : List Nat) (a : Nat) : D.contains a = true ↔ a ∈ D :=
  List.elem_iff

/-- Helper: destroying an empty candidate set changes nothing. -/
theorem markDestroyed_nil (vs : List CryptoKeyVersion) : markDestroyed [] vs = vs := by
  unfold markDestroyed
  simp

/-- Helper: the live versions after marking are exactly the live
versions whose id is not among the candidates. -/
theorem liveVersions_markDestroyed (D : List Nat) (vs : List CryptoKeyVersion) :
    liveVersions (markDestroyed D vs) =
      (liveVersions vs).filter (fun v => !(D.contains v.id)) := by
  induction vs with
  | nil => rfl
  | cons v vs ih =>
    simp only [markDestroyed, liveVersions] at ih ⊢
    simp only [List.map_cons]
    by_cases hd : v.id ∈ D
    · rw [if_pos hd]
      by_cases hv : v.destroyed <;>
        simp [hv, hd, ih, nat_contains_iff, List.filter_cons]
    · rw [if_neg hd]
      by_cases hv : v.destroyed <;>
        simp [hv, hd, ih, nat_contains_iff, List.filter_cons]

/-- C7: on a key with exactly 5 live (non-destroyed) versions with
distinct sequence numbers, `Trim` with keep = 3 selects exactly 2
live versions for destruction, leaves exactly 3 live afterwards, every
destroyed version is older than every surviving one (the 2 oldest go,
the 3 newest stay), versions outside the candidate set stay live, and
an immediate re-run of `Trim` changes nothing. -/
theorem c7_trim_destroys_two_oldest_and_idempotent (vs : List CryptoKeyVersion)
    (hnd : (vs.map CryptoKeyVersion.id).Nodup)
    (hlive : (liveVersions vs).length = 5) :
    ((liveVersions vs).filter (fun v => (trimCandidates 3 vs).contains v.id)).length = 2
    ∧ (liveVersions (Trim 3 vs)).length = 3
    ∧ (∀ v ∈ liveVersions vs, v.id ∈ trimCandidates 3 vs →
        ∀ u ∈ liveVersions (Trim 3 vs), v.id < u.id)
    ∧ (∀ v ∈ liveVersions vs, v.id ∉ trimCandidates 3 vs →
        v ∈ liveVersions (Trim 3 vs))
    ∧ Trim 3 (Trim 3 vs) = Trim 3 vs := by
  have hperm : List.Perm (List.insertionSort newerEq (liveVersions vs)) (liveVersions vs) :=
    List.perm_insertionSort newerEq (liveVersions vs)
  set L := liveVersions vs with hL
  set S := List.insertionSort newerEq L with hSdef
  have hSlen : S.length = 5 := hperm.length_eq.trans hlive
  have hLsub : L.Sublist vs := List.filter_sublist vs
  have hLnodup : (L.map CryptoKeyVersion.id).Nodup := hnd.sublist (hLsub.map _)
  have hSnodup : (S.map CryptoKeyVersion.id).Nodup := ((hperm.map _).nodup_iff).mpr hLnodup
  have hD : trimCandidates 3 vs = (S.drop 3).map CryptoKeyVersion.id := rfl
  have hDlen : (trimCandidates 3 vs).length = 2 := by
    rw [hD, List.length_map, List.length_drop, hSlen]
  have hsplit : S.take 3 ++ S.drop 3 = S := List.take_append_drop 3 S
  have hTlen : (S.take 3).length = 3 := by
    rw [List.length_take, hSlen]
    rfl
  have happnodup : ((S.take 3).map CryptoKeyVersion.id
      ++ (S.drop 3).map CryptoKeyVersion.id).Nodup := by
    rw [← List.map_append, hsplit]
    exact hSnodup
  have hdisj : ∀ u ∈ S.take 3, u.id ∉ trimCandidates 3 vs := by
    intro u hu hmem
    rw [hD] at hmem
    exact (List.nodup_append.mp happnodup).2.2 (List.mem_map_of_mem _ hu) hmem
  have hdropD : ∀ u ∈ S.drop 3, u.id ∈ trimCandidates 3 vs := by
    intro u hu
    rw [hD]
    exact List.mem_map_of_mem _ hu
  have hliveTrim : liveVersions (Trim 3 vs) =
      L.filter (fun v => !((trimCandidates 3 vs).contains v.id)) :=
    liveVersions_markDestroyed _ _
  have hfK : S.filter (fun v => !((trimCandidates 3 vs).contains v.id)) = S.take 3 := by
    conv_lhs => rw [← hsplit]
    rw [List.filter_append]
    rw [List.filter_eq_self.mpr (fun a ha => by
      simp [nat_contains_iff]
      exact hdisj a ha)]
    rw [List.filter_eq_nil_iff.mpr (fun a ha => by
      simp [nat_contains_iff]
      exact hdropD a ha)]
    exact List.append_nil _
  have hfD : S.filter (fun v => (trimCandidates 3 vs).contains v.id) = S.drop 3 := by
    conv_lhs => rw [← hsplit]
    rw [List.filter_append]
    rw [List.filter_eq_nil_iff.mpr (fun a ha => by
      simp [nat_contains_iff]
      exact hdisj a ha)]
    rw [List.filter_eq_self.mpr (fun a ha => by
      simp [nat_contains_iff]
      exact hdropD a ha)]
    exact List.nil_append _
  have hlen2 : (liveVersions (Trim 3 vs)).length = 3 := by
    rw [hliveTrim, ← (hperm.filter _).length_eq, hfK, hTlen]
  have hlen1 : (L.filter (fun v => (trimCandidates 3 vs).contains v.id)).length = 2 := by
    rw [← (hperm.filter _).length_eq, hfD, List.length_drop, hSlen]
  have hmemTake : ∀ u ∈ liveVersions (Trim 3 vs), u ∈ S.take 3 := by
    intro u hu
    rw [hliveTrim] at hu
    have hu' := List.mem_filter.mp hu
    have huS : u ∈ S := hperm.mem_iff.mpr hu'.1
    rcases (List.mem_append.mp (hsplit ▸ huS)) with h | h
    · exact h
    · exfalso
      have := hdropD u h
      simp [nat_contains_iff] at hu'
      exact hu'.2 this
  refine ⟨hlen1, hlen2, ?_, ?_, ?_⟩
  · intro v _ hvD u hu
    have hut : u ∈ S.take 3 := hmemTake u hu
    rw [hD] at hvD
    obtain ⟨w, hw, hwid⟩ := List.mem_map.mp hvD
    have hsorted : List.Sorted newerEq S := List.sorted_insertionSort newerEq L
    have hle : newerEq u w := hsorted.rel_of_mem_take_of_mem_drop hut hw
    have hne : w.id ≠ u.id := by
      intro hEqId
      exact hdisj u hut (hD ▸ (hEqId ▸ List.mem_map_of_mem CryptoKeyVersion.id hw))
    have : w.id < u.id := lt_of_le_of_ne hle hne
    omega
  · intro v hv hvD
    rw [hliveTrim]
    refine List.mem_filter.mpr ⟨hv, ?_⟩
    simp [nat_contains_iff]
    exact hvD
  · have hcand : trimCandidates 3 (Trim 3 vs) = [] := by
      unfold trimCandidates
      have hlen3 : (List.insertionSort newerEq (liveVersions (Trim 3 vs))).length = 3 :=
        (List.perm_insertionSort newerEq _).length_eq.trans hlen2
      rw [List.drop_eq_nil_of_le (le_of_eq hlen3), List.map_nil]
    show markDestroyed (trimCandidates 3 (Trim 3 vs)) (Trim 3 vs) = Trim 3 vs
    rw [hcand]
    exact markDestroyed_nil _

/-- C7 witness: the conclusions at a concrete key with 5 live
versions numbered 1..5: 2 candidates, 3 survivors, and a no-op
re-run. -/
theorem c7_trim_destroys_two_oldest_and_idempotent_witness :
    ((liveVersions
        [CryptoKeyVersion.mk 1 false, CryptoKeyVersion.mk 2 false,
         CryptoKeyVersion.mk 3 false, CryptoKeyVersion.mk 4 false,
         CryptoKeyVersion.mk 5 false]).filter
      (fun v => (trimCandidates 3
        [CryptoKeyVersion.mk 1 false, CryptoKeyVersion.mk 2 false,
         CryptoKeyVersion.mk 3 false, CryptoKeyVersion.mk 4 false,
         CryptoKeyVersion.mk 5 false]).contains v.id)).length = 2
    ∧ (liveVersions (Trim 3
        [CryptoKeyVersion.mk 1 false, CryptoKeyVersion.mk 2 false,
         CryptoKeyVersion.mk 3 false, CryptoKeyVersion.mk 4 false,
         CryptoKeyVersion.mk 5 false])).length = 3
    ∧ Trim 3 (Trim 3
        [CryptoKeyVersion.mk 1 false, CryptoKeyVersion.mk 2 false,
         CryptoKeyVersion.mk 3 false, CryptoKeyVersion.mk 4 false,
         CryptoKeyVersion.mk 5 false]) = Trim 3
        [CryptoKeyVersion.mk 1 false, CryptoKeyVersion.mk 2 false,
         CryptoKeyVersion.mk 3 false, CryptoKeyVersion.mk 4 false,
         CryptoKeyVersion.mk 5 false] := by
  have H := c7_trim_destroys_two_oldest_and_idempotent
    [CryptoKeyVersion.mk 1 false, CryptoKeyVersion.mk 2 false,
     CryptoKeyVersion.mk 3 false, CryptoKeyVersion.mk 4 false,
     CryptoKeyVersion.mk 5 false] (by decide) (by decide)
  exact ⟨H.1, H.2.1, H.2.2.2.2⟩

end Gcpkms
